import Mathlib

/-!
Verification of the weedton_api referral backend (`src/main.py`).

The database state is modelled as two lists of rows (tables `users` and
`referrals`, in insertion order: SQLAlchemy `add` appends a row and serial
primary keys follow insertion order).  Each FastAPI handler from
`src/main.py` becomes a pure function over this state; an
`HTTPException(status_code=c)` becomes `Except.error c`.  The current
timestamp (`datetime.utcnow`, the `date` column default) is passed in as an
explicit `now` parameter.
-/

namespace WeedtonApi

/-- A row of the `users` table (class `User` in `src/main.py`):
`id` primary key, `tg_id` unique, `username`, `ref_link` unique. -/
structure User where
  id : Nat
  tg_id : String
  username : String
  ref_link : String
deriving DecidableEq, Repr

/-- A row of the `referrals` table (class `Referral` in `src/main.py`):
`id` primary key, `date` timestamp, the ordered pair
`(user_tg_id, friend_tg_id)`, and `points`. -/
structure Referral where
  id : Nat
  date : Nat
  user_tg_id : String
  friend_tg_id : String
  points : Int
deriving DecidableEq, Repr

/-- The database state: the two tables, rows in insertion order. -/
structure DB where
  users : List User
  referrals : List Referral
deriving DecidableEq, Repr

/-- `db.query(User).filter(User.tg_id == tg_id).first()`. -/
def findUser (db : DB) (tg_id : String) : Option User :=
  db.users.find? (fun u => u.tg_id == tg_id)

/-- `db.query(Referral).filter(Referral.user_tg_id == a, Referral.friend_tg_id == b).first()`
(the duplicate check of `create_referral`). -/
def findReferral (db : DB) (a b : String) : Option Referral :=
  db.referrals.find? (fun r => r.user_tg_id == a && r.friend_tg_id == b)

/-- `get_or_create_user` (src/main.py lines 85-93), the body of
`POST /users/`: look up by `tg_id`; if absent, build the referral link
`f"https://t.me/tma123_bot?startapp={tg_id}"`, add and commit the new row;
return the (found or fresh) row together with the resulting state. -/
def get_or_create_user (db : DB) (tg_id username : String) : User × DB :=
  match findUser db tg_id with
  | some u => (u, db)
  | none =>
      let ref_link := "https://t.me/tma123_bot?startapp=" ++ tg_id
      let u : User := ⟨db.users.length + 1, tg_id, username, ref_link⟩
      (u, { db with users := db.users ++ [u] })

/-- `GET /users/{tg_id}` (src/main.py lines 108-118): 404 when no row
matches, otherwise the row. -/
def get_user (db : DB) (tg_id : String) : Except Nat User :=
  match findUser db tg_id with
  | some u => Except.ok u
  | none => Except.error 404

/-- `GET /users/{tg_id}/friends` (src/main.py lines 121-131): collect the
`friend_tg_id`s of the referral rows whose `user_tg_id` matches, then
`db.query(User).filter(User.tg_id.in_(friend_ids)).all()` — the user rows
whose `tg_id` is a member of that list. -/
def get_user_friends (db : DB) (tg_id : String) : List User :=
  let referrals := db.referrals.filter (fun r => r.user_tg_id == tg_id)
  let friend_ids := referrals.map (fun r => r.friend_tg_id)
  db.users.filter (fun u => friend_ids.contains u.tg_id)

/-- `POST /referrals/` (src/main.py lines 134-158): 400 when a row with the
same ordered pair exists, leaving the state as it was; otherwise add and
commit a new row with `points=100` and `date` defaulted to the current
time, and return it. -/
def create_referral (db : DB) (user_tg_id friend_tg_id : String) (now : Nat) :
    Except Nat Referral × DB :=
  match findReferral db user_tg_id friend_tg_id with
  | some _ => (Except.error 400, db)
  | none =>
      let r : Referral :=
        ⟨db.referrals.length + 1, now, user_tg_id, friend_tg_id, 100⟩
      (Except.ok r, { db with referrals := db.referrals ++ [r] })

/-- `GET /users/{tg_id}/referral_link` (src/main.py lines 161-171): 404 when
the user is absent, otherwise the stored `ref_link`. -/
def get_referral_link (db : DB) (tg_id : String) : Except Nat String :=
  match findUser db tg_id with
  | some u => Except.ok u.ref_link
  | none => Except.error 404

/-- `GET /users/{tg_id}/total_points` (src/main.py lines 174-183):
`sum(referral.points for referral in referrals)` over the rows whose
`user_tg_id` matches. -/
def get_total_points (db : DB) (tg_id : String) : Int :=
  ((db.referrals.filter (fun r => r.user_tg_id == tg_id)).map
    (fun r => r.points)).sum

/-- The empty database, as after `Base.metadata.create_all`. -/
def DB.empty : DB := ⟨[], []⟩

/-- Sample user row, as created by `POST /users/` with tg_id "111". -/
def u111 : User := ⟨1, "111", "alice", "https://t.me/tma123_bot?startapp=111"⟩

/-- Sample state holding just the user `u111`. -/
def db1 : DB := ⟨[u111], []⟩

/-- Sample referral row for the ordered pair ("A", "B"). -/
def rAB : Referral := ⟨1, 0, "A", "B", 100⟩

/-- Sample state holding just the referral `rAB`. -/
def dbR : DB := ⟨[], [rAB]⟩

/-- A second referral row with the same ordered pair ("A", "B") as `rAB`. -/
def rAB2 : Referral := ⟨2, 0, "A", "B", 100⟩

/-- Sample user row for tg_id "B". -/
def uB : User := ⟨1, "B", "bob", "https://t.me/tma123_bot?startapp=B"⟩

/-- Sample state with duplicate referral rows for the pair ("A", "B") and
the matching user row `uB`. -/
def dbDup : DB := ⟨[uB], [rAB, rAB2]⟩

/-- Absence characterisation of the duplicate check of `create_referral`. -/
theorem findReferral_eq_none_iff (db : DB) (a b : String) :
    findReferral db a b = none ↔
      ∀ r ∈ db.referrals, ¬(r.user_tg_id = a ∧ r.friend_tg_id = b) := by
  simp [findReferral, List.find?_eq_none]

/-- Presence characterisation of the duplicate check of `create_referral`. -/
theorem findReferral_isSome_iff (db : DB) (a b : String) :
    (findReferral db a b).isSome ↔
      ∃ r ∈ db.referrals, r.user_tg_id = a ∧ r.friend_tg_id = b := by
  simp [findReferral, List.find?_isSome]

/-- After `get_or_create_user`, looking the `tg_id` up finds exactly the
returned row. -/
theorem findUser_get_or_create (db : DB) (tg n : String) :
    findUser (get_or_create_user db tg n).2 tg
      = some (get_or_create_user db tg n).1 := by
  cases h : findUser db tg with
  | some u => simp [get_or_create_user, h]
  | none =>
      have h' : db.users.find? (fun u => u.tg_id == tg) = none := h
      simp [get_or_create_user, h, findUser, List.find?_append, h']

/-- When the lookup finds a row, `get_or_create_user` returns that row and
leaves the state untouched. -/
theorem get_or_create_of_found (db : DB) (tg n : String) (u : User)
    (h : findUser db tg = some u) :
    get_or_create_user db tg n = (u, db) := by
  simp [get_or_create_user, h]

/-- Summing `points` over the matching rows equals summing a guarded
`points` over all rows. -/
theorem sum_points_filter (l : List Referral) (tg : String) :
    ((l.filter (fun r => r.user_tg_id == tg)).map (fun r => r.points)).sum
      = (l.map (fun r => if r.user_tg_id = tg then r.points else 0)).sum := by
  induction l with
  | nil => rfl
  | cons r rs ih =>
      by_cases h : r.user_tg_id = tg <;> simp [List.filter_cons, h, ih]

/-- Each user row occurs in the `get_user_friends` output at most as often
as it occurs in the `users` table (the output is a filter of that table). -/
theorem friends_count_le (db : DB) (tg : String) (u : User) :
    (get_user_friends db tg).count u ≤ db.users.count u := by
  unfold get_user_friends
  exact (List.filter_sublist _).count_le u

/-- Claim C1: calling `get_or_create_user` twice with the same `tg_id`
returns the same user (hence the same `ref_link`) both times, leaves the
state of the second call equal to that after the first (so no second
`User` row is created and the row count is unchanged), and the first call
establishes a row for `tg_id` that every later call returns unchanged. -/
theorem create_user_idempotent (db : DB) (tg n₁ n₂ : String) :
    (get_or_create_user (get_or_create_user db tg n₁).2 tg n₂).1
        = (get_or_create_user db tg n₁).1 ∧
    (get_or_create_user (get_or_create_user db tg n₁).2 tg n₂).1.ref_link
        = (get_or_create_user db tg n₁).1.ref_link ∧
    (get_or_create_user (get_or_create_user db tg n₁).2 tg n₂).2
        = (get_or_create_user db tg n₁).2 ∧
    (get_or_create_user (get_or_create_user db tg n₁).2 tg n₂).2.users.length
        = (get_or_create_user db tg n₁).2.users.length ∧
    findUser (get_or_create_user db tg n₁).2 tg
        = some (get_or_create_user db tg n₁).1 := by
  have h := findUser_get_or_create db tg n₁
  have h₂ := get_or_create_of_found _ tg n₂ _ h
  exact ⟨by rw [h₂], by rw [h₂], by rw [h₂], by rw [h₂], h⟩

/-- Claim C3: when no row with the same ordered pair exists,
`create_referral` appends exactly one new `Referral` row whose `points` is
100, whose `date` is the current timestamp and whose pair is the request's
pair, and returns that row. -/
theorem create_referral_success_spec (db : DB) (a b : String) (now : Nat)
    (h : ∀ r ∈ db.referrals, ¬(r.user_tg_id = a ∧ r.friend_tg_id = b)) :
    ∃ r, create_referral db a b now
        = (Except.ok r, { db with referrals := db.referrals ++ [r] }) ∧
      r.points = 100 ∧ r.date = now ∧ r.user_tg_id = a ∧ r.friend_tg_id = b := by
  have hf : findReferral db a b = none := (findReferral_eq_none_iff db a b).mpr h
  exact ⟨⟨db.referrals.length + 1, now, a, b, 100⟩,
    by simp [create_referral, hf], rfl, rfl, rfl, rfl⟩

/-- Claim C3 witness: on the empty database, creating the referral
(111, 222) at time 7 succeeds and appends the single row with points 100
and date 7. -/
theorem create_referral_success_spec_witness :
    (∀ r ∈ DB.empty.referrals, ¬(r.user_tg_id = "111" ∧ r.friend_tg_id = "222")) ∧
    ∃ r, create_referral DB.empty "111" "222" 7
        = (Except.ok r, { DB.empty with referrals := DB.empty.referrals ++ [r] }) ∧
      r.points = 100 ∧ r.date = 7 ∧ r.user_tg_id = "111" ∧ r.friend_tg_id = "222" :=
  ⟨by simp [DB.empty],
   create_referral_success_spec DB.empty "111" "222" 7 (by simp [DB.empty])⟩

/-- Claim C4: `get_total_points` returns the sum, over all `Referral`
rows, of the row's `points` when its `user_tg_id` matches and 0 otherwise;
in particular it returns 0 when no row matches (whether or not any `User`
row with that `tg_id` exists — the handler never consults the `users`
table). -/
theorem get_total_points_spec (db : DB) (tg : String) :
    get_total_points db tg
      = (db.referrals.map (fun r => if r.user_tg_id = tg then r.points else 0)).sum ∧
    ((∀ r ∈ db.referrals, r.user_tg_id ≠ tg) → get_total_points db tg = 0) := by
  constructor
  · exact sum_points_filter db.referrals tg
  · intro h
    rw [get_total_points, sum_points_filter db.referrals tg]
    refine List.sum_eq_zero ?_
    intro x hx
    rcases List.mem_map.mp hx with ⟨r, hr, hrx⟩
    simp [h r hr] at hrx
    exact hrx.symm

/-- Claim C4 witness: for the state holding one user and no referrals, the
user's total points are 0. -/
theorem get_total_points_spec_witness :
    (∀ r ∈ db1.referrals, r.user_tg_id ≠ "111") ∧ get_total_points db1 "111" = 0 :=
  ⟨by simp [db1], (get_total_points_spec db1 "111").2 (by simp [db1])⟩

/-- Claim C5: when no `User` row with the given `tg_id` exists, the stored
referral link of the created user is exactly
"https://t.me/tma123_bot?startapp=" followed by the `tg_id`. -/
theorem ref_link_form (db : DB) (tg n : String)
    (h : ∀ u ∈ db.users, u.tg_id ≠ tg) :
    (get_or_create_user db tg n).1.ref_link
      = "https://t.me/tma123_bot?startapp=" ++ tg := by
  have hf : findUser db tg = none := by
    rw [findUser, List.find?_eq_none]
    intro u hu
    simpa using h u hu
  simp [get_or_create_user, hf]

/-- Claim C5 witness: creating tg_id "111" on the empty database yields
ref_link "https://t.me/tma123_bot?startapp=111". -/
theorem ref_link_form_witness :
    (∀ u ∈ DB.empty.users, u.tg_id ≠ "111") ∧
    (get_or_create_user DB.empty "111" "alice").1.ref_link
      = "https://t.me/tma123_bot?startapp=111" :=
  ⟨by simp [DB.empty],
   (ref_link_form DB.empty "111" "alice" (by simp [DB.empty])).trans rfl⟩

/-- Claim C2: `create_referral` fails with HTTP 400 exactly when a row with
the same ordered pair already exists, and on that failure the state is
returned unchanged; the reversed pair does not count as a duplicate — when
the two ids differ and no reversed row exists, creating the reversed pair
right after creating the original pair succeeds. -/
theorem create_referral_conflict_spec (db : DB) (a b : String) (now now₂ : Nat) :
    ((create_referral db a b now).1 = Except.error 400 ↔
      ∃ r ∈ db.referrals, r.user_tg_id = a ∧ r.friend_tg_id = b) ∧
    ((∃ r ∈ db.referrals, r.user_tg_id = a ∧ r.friend_tg_id = b) →
      create_referral db a b now = (Except.error 400, db)) ∧
    (a ≠ b → (∀ r ∈ db.referrals, ¬(r.user_tg_id = b ∧ r.friend_tg_id = a)) →
      ∃ r db₂, create_referral (create_referral db a b now).2 b a now₂
        = (Except.ok r, db₂)) := by
  have e1 : (create_referral db a b now).1 = Except.error 400 ↔
      (findReferral db a b).isSome = true := by
    cases h : findReferral db a b <;> simp [create_referral, h]
  refine ⟨e1.trans (findReferral_isSome_iff db a b), ?_, ?_⟩
  · intro hex
    obtain ⟨r, hr⟩ :=
      Option.isSome_iff_exists.mp ((findReferral_isSome_iff db a b).mpr hex)
    simp [create_referral, hr]
  · intro hab hno
    have hok : ∀ d : DB, findReferral d b a = none →
        ∃ r db₂, create_referral d b a now₂ = (Except.ok r, db₂) := by
      intro d hd
      exact ⟨⟨d.referrals.length + 1, now₂, b, a, 100⟩,
        { d with referrals :=
            d.referrals ++ [⟨d.referrals.length + 1, now₂, b, a, 100⟩] },
        by simp [create_referral, hd]⟩
    have hb : findReferral db b a = none := (findReferral_eq_none_iff db b a).mpr hno
    cases h : findReferral db a b with
    | some r =>
        have h2 : (create_referral db a b now).2 = db := by simp [create_referral, h]
        rw [h2]
        exact hok db hb
    | none =>
        have h2 : (create_referral db a b now).2 = { db with referrals :=
            db.referrals ++ [⟨db.referrals.length + 1, now, a, b, 100⟩] } := by
          simp [create_referral, h]
        rw [h2]
        apply hok
        rw [findReferral] at hb ⊢
        rw [List.find?_append, hb]
        simp [hab]

/-- Claim C2 witness: with a stored ("A","B") referral, repeating ("A","B")
fails with HTTP 400 and leaves the state unchanged, while the reversed pair
("B","A") then succeeds. -/
theorem create_referral_conflict_spec_witness :
    create_referral dbR "A" "B" 0 = (Except.error 400, dbR) ∧
    ∃ r db₂, create_referral (create_referral dbR "A" "B" 0).2 "B" "A" 0
      = (Except.ok r, db₂) :=
  ⟨(create_referral_conflict_spec dbR "A" "B" 0 0).2.1
      ⟨rAB, by simp [dbR], rfl, rfl⟩,
   (create_referral_conflict_spec dbR "A" "B" 0 0).2.2 (by decide) (by decide)⟩

/-- Claim C6: `get_user` and `get_referral_link` both fail with HTTP 404
exactly when no `User` row with the given `tg_id` exists; when the lookup
finds a row, `get_user` returns that stored row (a member of the table
matching the `tg_id`) and `get_referral_link` returns exactly its stored
`ref_link`. -/
theorem get_user_and_link_spec (db : DB) (tg : String) :
    (get_user db tg = Except.error 404 ↔ ∀ u ∈ db.users, u.tg_id ≠ tg) ∧
    (get_referral_link db tg = Except.error 404 ↔ ∀ u ∈ db.users, u.tg_id ≠ tg) ∧
    (∀ u, findUser db tg = some u →
      get_user db tg = Except.ok u ∧ u ∈ db.users ∧ u.tg_id = tg ∧
      get_referral_link db tg = Except.ok u.ref_link) := by
  have habs : findUser db tg = none ↔ ∀ u ∈ db.users, u.tg_id ≠ tg := by
    simp [findUser, List.find?_eq_none]
  refine ⟨?_, ?_, ?_⟩
  · cases h : findUser db tg with
    | some u =>
        have hne : ¬ ∀ v ∈ db.users, v.tg_id ≠ tg := fun hr => by
          rw [habs.mpr hr] at h; exact Option.noConfusion h
        simp [get_user, h, hne]
    | none =>
        simp only [get_user, h]
        simpa using habs.mp h
  · cases h : findUser db tg with
    | some u =>
        have hne : ¬ ∀ v ∈ db.users, v.tg_id ≠ tg := fun hr => by
          rw [habs.mpr hr] at h; exact Option.noConfusion h
        simp [get_referral_link, h, hne]
    | none =>
        simp only [get_referral_link, h]
        simpa using habs.mp h
  · intro u hu
    refine ⟨by simp [get_user, hu], List.mem_of_find?_eq_some hu, ?_,
      by simp [get_referral_link, hu]⟩
    have := List.find?_some hu
    simpa using this

/-- Claim C6 witness: for the state holding the user "111", `get_user`
returns its row and `get_referral_link` its stored link. -/
theorem get_user_and_link_spec_witness :
    get_user db1 "111" = Except.ok u111 ∧ u111 ∈ db1.users ∧
    u111.tg_id = "111" ∧
    get_referral_link db1 "111" = Except.ok u111.ref_link :=
  (get_user_and_link_spec db1 "111").2.2 u111 (by decide)

/-- Claim C7: a user row is in the output of `get_user_friends db tg`
exactly when it is a stored `User` row whose `tg_id` is the `friend_tg_id`
of some `Referral` row with `user_tg_id = tg`. -/
theorem get_user_friends_mem_spec (db : DB) (tg : String) (u : User) :
    u ∈ get_user_friends db tg ↔
      u ∈ db.users ∧
        ∃ r ∈ db.referrals, r.user_tg_id = tg ∧ r.friend_tg_id = u.tg_id := by
  simp [get_user_friends, List.mem_filter, List.mem_map, and_assoc]

/-- Claim C10: `create_referral` checks neither participant's existence:
its only error is HTTP 400, and for every pair of ids — whether or not any
matching `User` rows exist, the self-referral pair included — the call
succeeds and appends the row whenever no `Referral` row with the same
ordered pair exists (so it never fails with NotFound). -/
theorem create_referral_no_existence_check (db : DB) (a b : String) (now : Nat) :
    (∀ e, (create_referral db a b now).1 = Except.error e → e = 400) ∧
    ((∀ r ∈ db.referrals, ¬(r.user_tg_id = a ∧ r.friend_tg_id = b)) →
      ∃ r, create_referral db a b now
        = (Except.ok r, { db with referrals := db.referrals ++ [r] })) := by
  constructor
  · intro e he
    cases h : findReferral db a b with
    | some r =>
        simp [create_referral, h] at he
        exact he.symm
    | none => simp [create_referral, h] at he
  · intro hno
    have hf : findReferral db a b = none := (findReferral_eq_none_iff db a b).mpr hno
    exact ⟨⟨db.referrals.length + 1, now, a, b, 100⟩, by simp [create_referral, hf]⟩

/-- Claim C10 witness: the self-referral ("A","A") on the empty database —
no user rows at all — succeeds and appends its row. -/
theorem create_referral_no_existence_check_witness :
    (∀ r ∈ DB.empty.referrals, ¬(r.user_tg_id = "A" ∧ r.friend_tg_id = "A")) ∧
    ∃ r, create_referral DB.empty "A" "A" 0
      = (Except.ok r, { DB.empty with referrals := DB.empty.referrals ++ [r] }) :=
  ⟨by simp [DB.empty],
   (create_referral_no_existence_check DB.empty "A" "A" 0).2 (by simp [DB.empty])⟩

/-- Claim C8 is false on the code: in every state obeying the schema's
unique-`tg_id` constraint on `users` — including every state holding two
`Referral` rows with the same ordered pair and a matching `User` row — the
friend's row never appears more than once in the output of
`get_user_friends`, because the handler filters the `users` table by
membership (`tg_id IN friend_ids`) rather than joining per referral row. -/
theorem get_user_friends_dup_claim_false :
    ¬ ∃ (db : DB) (tg : String) (u : User),
        (db.users.map User.tg_id).Nodup ∧ u ∈ db.users ∧
        2 ≤ (db.referrals.filter
              (fun r => r.user_tg_id == tg && r.friend_tg_id == u.tg_id)).length ∧
        1 < (get_user_friends db tg).count u := by
  rintro ⟨db, tg, u, hnodup, _hu, _hdup, hcount⟩
  have h1 := friends_count_le db tg u
  have h2 := List.count_le_count_map db.users User.tg_id u
  have h3 := List.nodup_iff_count_le_one.mp hnodup u.tg_id
  omega

/-- Claim C8 amended: duplicate `Referral` rows do not produce duplicates
in the output of `get_user_friends` — each user row appears in the output
at most as often as it appears in the `users` table, hence at most once
when the `users` table satisfies the schema's unique-`tg_id` constraint. -/
theorem get_user_friends_count_le_spec (db : DB) (tg : String) (u : User) :
    (get_user_friends db tg).count u ≤ db.users.count u ∧
    ((db.users.map User.tg_id).Nodup → (get_user_friends db tg).count u ≤ 1) := by
  refine ⟨friends_count_le db tg u, fun hnodup => ?_⟩
  have h2 := List.count_le_count_map db.users User.tg_id u
  have h3 := List.nodup_iff_count_le_one.mp hnodup u.tg_id
  have h1 := friends_count_le db tg u
  omega

/-- Claim C8 amended witness: in the sample state with two ("A","B")
referral rows and the single matching user `uB`, the output of
`get_user_friends` contains `uB` at most once (in fact exactly once). -/
theorem get_user_friends_count_le_spec_witness :
    (dbDup.users.map User.tg_id).Nodup ∧
    (get_user_friends dbDup "A").count uB ≤ 1 :=
  ⟨by decide, (get_user_friends_count_le_spec dbDup "A" uB).2 (by decide)⟩

/-- Claim C9: write-once frames. `get_or_create_user` on an existing
`tg_id` returns the stored row — username and ref_link untouched — with the
state completely unchanged; it never touches the `referrals` table and only
ever appends to `users`; `create_referral` never touches the `users` table
and only ever appends to `referrals` (the read handlers are pure functions
of the state, mirroring their query-only bodies). -/
theorem write_once_frame (db : DB) (tg n a b : String) (now : Nat) :
    (∀ u, findUser db tg = some u → get_or_create_user db tg n = (u, db)) ∧
    (get_or_create_user db tg n).2.referrals = db.referrals ∧
    (∃ new, (get_or_create_user db tg n).2.users = db.users ++ new) ∧
    (create_referral db a b now).2.users = db.users ∧
    (∃ new, (create_referral db a b now).2.referrals = db.referrals ++ new) := by
  refine ⟨fun u hu => get_or_create_of_found db tg n u hu, ?_, ?_, ?_, ?_⟩
  · cases h : findUser db tg <;> simp [get_or_create_user, h]
  · cases h : findUser db tg with
    | some u => exact ⟨[], by simp [get_or_create_user, h]⟩
    | none =>
        exact ⟨[⟨db.users.length + 1, tg, n,
          "https://t.me/tma123_bot?startapp=" ++ tg⟩],
          by simp [get_or_create_user, h]⟩
  · cases h : findReferral db a b <;> simp [create_referral, h]
  · cases h : findReferral db a b with
    | some r => exact ⟨[], by simp [create_referral, h]⟩
    | none =>
        exact ⟨[⟨db.referrals.length + 1, now, a, b, 100⟩],
          by simp [create_referral, h]⟩

/-- Claim C9 witness: repeating create-user for the stored tg_id "111"
returns the stored row `u111` and the state `db1` unchanged. -/
theorem write_once_frame_witness :
    get_or_create_user db1 "111" "bob" = (u111, db1) :=
  (write_once_frame db1 "111" "bob" "A" "B" 0).1 u111 (by decide)

end WeedtonApi
